import Mathlib

/-!
Verification of the news-pipeline repository (`app/` package): a shallow
embedding, in Lean 4, of the data model and the decision logic of
`rss.py`, `scoring.py`, `post_generator.py`, `image_pipeline.py` and
`orchestrator.py`, together with theorems settling the frozen claims
about the natural-language specification.

Modelling conventions:
* Python `datetime` values are modelled as UTC epoch seconds (`Int`):
  the pipeline normalizes every timestamp to UTC before comparing.
* External collaborators (OpenAI responses, HTTP fetches, Google Sheets)
  are modelled as explicit oracle functions passed to the embedded code;
  each oracle call corresponds to one call of the collaborator in the
  source, after its transport-level retry wrapper.
* Python exceptions are modelled with `Except PyErr`; the variants
  mirror the exception classes that the source can raise or catch.
* `difflib.SequenceMatcher.ratio()` comparisons are carried out in exact
  rational arithmetic, the threshold being a numerator/denominator pair
  (`0.85` is exactly `17/20`).  No claim in scope depends on the float
  rounding of a ratio within `2^-50` of the threshold.
-/

set_option maxRecDepth 20000

namespace NewsPipeline

/-- `app/models.py` line 22: `NewsItem` — the normalized news item.
`published` is the optional publish time (UTC epoch seconds). -/
structure NewsItem where
  source : String
  title : String
  link : String
  summary : String
  published : Option Int
  keywords : List String
  media_url : Option String
deriving DecidableEq, Repr

/-- `app/models.py` line 35: `RankedNews` — a news item with relevance score. -/
structure RankedNews where
  news : NewsItem
  score : Int
  evaluation_notes : Option String
deriving DecidableEq, Repr

/-- `app/models.py` line 44: `GeneratedPost` — the composed post bundle.
All seven fields are required (the dataclass declares no defaults). -/
structure GeneratedPost where
  title : String
  translated_title : String
  body : String
  summary : String
  short_body : String
  average_body : String
  hashtags : List String
deriving DecidableEq, Repr

/-- `app/models.py` line 61: `ImageAsset`. -/
structure ImageAsset where
  url : String
  source : String
  prompt : Option String
deriving DecidableEq, Repr

/-- `app/models.py` line 70: `PublicationRecord` (the fields that
`PipelineRunner._build_record` fills; the trailing optional fields keep
their dataclass defaults). -/
structure PublicationRecord where
  date : String
  source : String
  title : String
  link : String
  summary : String
  post : GeneratedPost
  image : ImageAsset
  score : Int
  image_source : String
  status : String
  notes : Option String
  telegraph_link : Option String
  vk_post_link : Option String
  tg_post_link : Option String
deriving DecidableEq, Repr

/-! ## Relevance scorer (`app/scoring.py`) -/

/-- A digit character `0`-`9` (model of `\d` in `SCORE_PATTERN`;
the prompt and responses in scope use ASCII digits). -/
def isDigitChar (c : Char) : Bool := '0' ≤ c ∧ c ≤ '9'

/-- First match of the regex `(\d{1,2})` over the character list: at the
first digit the match is that digit, extended by one more digit when the
next character is also a digit; the matched text is read as a number. -/
def firstNumMatch : List Char → Option Int
  | [] => none
  | c :: rest =>
    if isDigitChar c then
      match rest with
      | d :: _ =>
        if isDigitChar d then
          some (((c.toNat - 48) * 10 + (d.toNat - 48) : Nat) : Int)
        else some ((c.toNat - 48 : Nat) : Int)
      | [] => some ((c.toNat - 48 : Nat) : Int)
    else firstNumMatch rest

/-- `RelevanceScorer._parse_score` (`app/scoring.py` lines 88-98):
empty text yields `(none, none)`; text without a digit yields
`(none, text)`; otherwise the first numeric match is clamped by
`max(1, min(score, 10))` and the whole text is kept as notes. -/
def parseScore (text : String) : Option Int × Option String :=
  if text = "" then (none, none)
  else
    match firstNumMatch text.data with
    | none => (none, some text)
    | some score => (some (max 1 (min score 10)), some text)

/-- One cache entry of `relevance_cache.json`: `{"score": ..., "notes": ...}`. -/
structure CacheEntry where
  score : Int
  notes : Option String
deriving DecidableEq, Repr

/-- The in-memory relevance cache: a mapping from link to entry
(`RelevanceScorer._cache`). -/
def ScoreCache := List (String × CacheEntry)

instance : DecidableEq ScoreCache := by
  unfold ScoreCache
  infer_instance

/-- Python `dict` lookup on the cache (keys are unique in a `dict`;
the model keeps the most recent binding first). -/
def cacheFind : ScoreCache → String → Option CacheEntry
  | [], _ => none
  | (k, v) :: rest, key => if k = key then some v else cacheFind rest key

/-- `self._cache[item.link] = {...}` — insert or overwrite a binding. -/
def cacheInsert (cache : ScoreCache) (key : String) (e : CacheEntry) : ScoreCache :=
  (key, e) :: (cache.filter (fun kv => ¬ (kv.1 = key)))

/-- Result of one `RelevanceScorer.evaluate` call: the optional ranked
item, the cache afterwards, and how many external judgment calls
(`_request_score`) were issued (0 or 1). -/
structure EvalResult where
  ranked : Option RankedNews
  cache : ScoreCache
  calls : Nat

/-- `RelevanceScorer.evaluate` (`app/scoring.py` lines 41-60).
`judge` is the external judgment collaborator (`_request_score` after
its transport retries): `.error` models an exception escaping the retry
wrapper, which `evaluate` catches and turns into `none`.  On a cache hit
the cached entry is returned with no external call; on a miss one call
is issued, and only a successfully parsed score is written back. -/
def evaluate (judge : String → Except Unit String) (cache : ScoreCache)
    (item : NewsItem) : EvalResult :=
  match cacheFind cache item.link with
  | some cached =>
    { ranked := some { news := item, score := cached.score, evaluation_notes := cached.notes }
      cache := cache
      calls := 0 }
  | none =>
    match judge item.link with
    | .error _ => { ranked := none, cache := cache, calls := 1 }
    | .ok text =>
      match parseScore text with
      | (none, _) => { ranked := none, cache := cache, calls := 1 }
      | (some score, notes) =>
        { ranked := some { news := item, score := score, evaluation_notes := notes }
          cache := cacheInsert cache item.link { score := score, notes := notes }
          calls := 1 }

/-- `RelevanceScorer.evaluate_many` (`app/scoring.py` lines 32-39):
evaluates the items in order, threading the cache, counting total
external calls, and keeping only the items that scored. -/
def evaluateMany (judge : String → Except Unit String) (cache : ScoreCache) :
    List NewsItem → List RankedNews × ScoreCache × Nat
  | [] => ([], cache, 0)
  | item :: rest =>
    let r := evaluate judge cache item
    let (tail, cache', calls) := evaluateMany judge r.cache rest
    match r.ranked with
    | some ranked => (ranked :: tail, cache', r.calls + calls)
    | none => (tail, cache', r.calls + calls)

/-- `text` contains no digit character. -/
def noDigit (text : String) : Bool := text.data.all (fun c => ¬ isDigitChar c)

theorem firstNumMatch_none_of_noDigit (l : List Char) (h : l.all (fun c => ¬ isDigitChar c)) :
    firstNumMatch l = none := by
  induction l with
  | nil => rfl
  | cons c rest ih =>
    simp only [List.all_cons, Bool.and_eq_true, decide_eq_true_eq] at h
    simp only [firstNumMatch]
    rw [if_neg (by simpa using h.1)]
    exact ih h.2

theorem parseScore_fst_none_of_noDigit (text : String) (h : noDigit text = true) :
    (parseScore text).1 = none := by
  unfold parseScore
  split
  · rfl
  · rw [firstNumMatch_none_of_noDigit text.data (by simpa [noDigit] using h)]

theorem parseScore_bounds (text : String) (s : Int) (notes : Option String)
    (h : parseScore text = (some s, notes)) : 1 ≤ s ∧ s ≤ 10 := by
  unfold parseScore at h
  split at h
  · simp at h
  · revert h
    cases firstNumMatch text.data with
    | none => intro h; simp at h
    | some score =>
      intro h
      simp only [Prod.mk.injEq, Option.some.injEq] at h
      have hs : s = max 1 (min score 10) := h.1.symm
      constructor
      · rw [hs]; exact le_max_left 1 _
      · rw [hs]
        exact max_le (by norm_num) (min_le_right score 10)

/-- Concrete news item used by witnesses. -/
def newsA : NewsItem :=
  { source := "https://example.com/feed", title := "AI breakthrough"
    link := "https://example.com/1", summary := "New AI model released"
    published := none, keywords := ["AI"], media_url := none }

/-- Second concrete news item. -/
def newsB : NewsItem :=
  { source := "https://example.com/feed", title := "AI robotics update"
    link := "https://example.com/2", summary := "Robotics summary"
    published := none, keywords := ["AI"], media_url := none }

/-- C5: `_parse_score` takes the first numeric match of the response and
clamps it into `[1, 10]`, so every score an item receives on the scoring
path lies in `[1, 10]`; and when the response text contains no digit,
`evaluate` yields nothing (the item is dropped) and writes no default
score. -/
theorem c5_score_clamped :
    (∀ (text : String) (s : Int) (notes : Option String),
        parseScore text = (some s, notes) → 1 ≤ s ∧ s ≤ 10) ∧
    (∀ (judge : String → Except Unit String) (cache : ScoreCache)
        (item : NewsItem) (r : RankedNews),
        cacheFind cache item.link = none →
        (evaluate judge cache item).ranked = some r → 1 ≤ r.score ∧ r.score ≤ 10) ∧
    (∀ (judge : String → Except Unit String) (cache : ScoreCache)
        (item : NewsItem) (text : String),
        cacheFind cache item.link = none →
        judge item.link = .ok text →
        noDigit text = true →
        (evaluate judge cache item).ranked = none) := by
  refine ⟨parseScore_bounds, ?_, ?_⟩
  · intro judge cache item r hmiss hr
    cases hj : judge item.link with
    | error e =>
      simp only [evaluate, hmiss, hj] at hr
      exact Option.noConfusion hr
    | ok text =>
      cases hps : parseScore text with
      | mk fst snd =>
        cases fst with
        | none =>
          simp only [evaluate, hmiss, hj, hps] at hr
          exact Option.noConfusion hr
        | some score =>
          simp only [evaluate, hmiss, hj, hps, Option.some.injEq] at hr
          have hsc : r.score = score := by rw [← hr]
          rw [hsc]
          exact parseScore_bounds text score snd hps
  · intro judge cache item text hmiss hok hnd
    cases hps : parseScore text with
    | mk fst snd =>
      have h1 : fst = none := by
        have h2 := parseScore_fst_none_of_noDigit text hnd
        rw [hps] at h2
        exact h2
      subst h1
      simp only [evaluate, hmiss, hok, hps]

/-- Witness for C5: with an empty cache, a judgment response
`"score: 9 — good"` produces score `9 ∈ [1, 10]`, and a digitless
response `"no score here"` drops the item. -/
theorem c5_score_clamped_witness :
    (evaluate (fun _ => .ok "score: 9 — good") [] newsA).ranked =
      some { news := newsA, score := 9, evaluation_notes := some "score: 9 — good" } ∧
    (1 ≤ (9 : Int) ∧ (9 : Int) ≤ 10) ∧
    (evaluate (fun _ => .ok "no score here") [] newsA).ranked = none := by
  refine ⟨by decide, ?_, ?_⟩
  · exact c5_score_clamped.2.1 (fun _ => .ok "score: 9 — good") [] newsA
      { news := newsA, score := 9, evaluation_notes := some "score: 9 — good" }
      (by decide) (by decide)
  · exact c5_score_clamped.2.2 (fun _ => .ok "no score here") [] newsA "no score here"
      (by decide) rfl (by decide)

theorem cacheFind_cacheInsert (cache : ScoreCache) (key : String) (e : CacheEntry) :
    cacheFind (cacheInsert cache key e) key = some e := by
  simp [cacheInsert, cacheFind]

theorem evaluate_hit (judge : String → Except Unit String) (cache : ScoreCache)
    (item : NewsItem) (e : CacheEntry) (hhit : cacheFind cache item.link = some e) :
    evaluate judge cache item =
      { ranked := some { news := item, score := e.score, evaluation_notes := e.notes }
        cache := cache, calls := 0 } := by
  unfold evaluate
  rw [hhit]

/-- C4 (amended): a cache hit returns the cached entry immediately with
zero external judgment calls; and when a cache-miss evaluation succeeds
(a score is parsed and cached), a second `evaluate` on the same link is
a cache hit, so the two calls together issue exactly one external
judgment call.  (A failed first evaluation does not populate the cache,
so the second call issues another external call — see the
counterexample.) -/
theorem c4_cache_hit_no_call :
    (∀ (judge : String → Except Unit String) (cache : ScoreCache)
        (item : NewsItem) (e : CacheEntry),
        cacheFind cache item.link = some e →
        evaluate judge cache item =
          { ranked := some { news := item, score := e.score, evaluation_notes := e.notes }
            cache := cache, calls := 0 }) ∧
    (∀ (judge : String → Except Unit String) (cache : ScoreCache)
        (item : NewsItem) (r : RankedNews),
        cacheFind cache item.link = none →
        (evaluate judge cache item).ranked = some r →
        (evaluate judge (evaluate judge cache item).cache item).calls = 0 ∧
        (evaluate judge cache item).calls +
          (evaluate judge (evaluate judge cache item).cache item).calls = 1) := by
  constructor
  · exact evaluate_hit
  · intro judge cache item r hmiss hsome
    have hcalls : (evaluate judge cache item).calls = 1 := by
      cases hj : judge item.link with
      | error _ => simp only [evaluate, hmiss, hj]
      | ok text =>
        cases hps : parseScore text with
        | mk fst snd => cases fst <;> simp only [evaluate, hmiss, hj, hps]
    have hhit : ∃ e, cacheFind (evaluate judge cache item).cache item.link = some e := by
      cases hj : judge item.link with
      | error _ =>
        simp only [evaluate, hmiss, hj] at hsome
        exact Option.noConfusion hsome
      | ok text =>
        cases hps : parseScore text with
        | mk fst snd =>
          cases fst with
          | none =>
            simp only [evaluate, hmiss, hj, hps] at hsome
            exact Option.noConfusion hsome
          | some score =>
            simp only [evaluate, hmiss, hj, hps]
            exact ⟨_, cacheFind_cacheInsert cache item.link _⟩
    obtain ⟨e, he⟩ := hhit
    have hz : (evaluate judge (evaluate judge cache item).cache item).calls = 0 := by
      rw [evaluate_hit judge _ item e he]
    exact ⟨hz, by rw [hcalls, hz]⟩

/-- Witness for C4's amended theorem: concrete cache hit with zero calls,
and a successful miss-then-hit pair totalling one call. -/
theorem c4_cache_hit_no_call_witness :
    evaluate (fun _ => .ok "score: 7") [(newsA.link, { score := 7, notes := none })] newsA =
      { ranked := some { news := newsA, score := 7, evaluation_notes := none }
        cache := [(newsA.link, { score := 7, notes := none })], calls := 0 } ∧
    (evaluate (fun _ => .ok "score: 7") [] newsA).calls +
      (evaluate (fun _ => .ok "score: 7")
        (evaluate (fun _ => .ok "score: 7") [] newsA).cache newsA).calls = 1 := by
  constructor
  · exact c4_cache_hit_no_call.1 (fun _ => .ok "score: 7")
      [(newsA.link, { score := 7, notes := none })] newsA
      { score := 7, notes := none } (by decide)
  · exact (c4_cache_hit_no_call.2 (fun _ => .ok "score: 7") [] newsA
      { news := newsA, score := 7, evaluation_notes := some "score: 7" }
      (by decide) (by decide)).2

/-- Counterexample for C4 as stated: when the first judgment response
contains no digit, nothing is cached, so calling `evaluate` twice on the
same link issues two external judgment calls, not one. -/
theorem c4_two_calls_counterexample :
    (evaluate (fun _ => .ok "no digits at all") [] newsA).calls +
        (evaluate (fun _ => .ok "no digits at all")
          (evaluate (fun _ => .ok "no digits at all") [] newsA).cache newsA).calls = 2 ∧
    ¬ ((evaluate (fun _ => .ok "no digits at all") [] newsA).calls +
        (evaluate (fun _ => .ok "no digits at all")
          (evaluate (fun _ => .ok "no digits at all") [] newsA).cache newsA).calls = 1) := by
  constructor <;> decide

/-! ## Acceptance selector (`app/orchestrator.py`, `_select_top_ranked`) -/

/-- The inner `while pool and len(result) < 5: result.append(pool.pop(0))`
loop of `_select_top_ranked` (`app/orchestrator.py` lines 186-187). -/
def fillBand : List RankedNews → List RankedNews → List RankedNews
  | [], result => result
  | x :: rest, result =>
    if result.length < 5 then fillBand rest (result ++ [x]) else result

/-- `PipelineRunner._select_top_ranked` (`app/orchestrator.py` lines
172-190): partition into bands (`score >= 10`, `== 9`, `== 8`), fill the
result from the highest band down while it has fewer than 5 items, and
stop descending once it holds at least 3; finally truncate to 5. -/
def selectTopRanked (ranked : List RankedNews) : List RankedNews :=
  let band10 := ranked.filter (fun i => 10 ≤ i.score)
  let band9 := ranked.filter (fun i => i.score = 9)
  let band8 := ranked.filter (fun i => i.score = 8)
  let r1 := fillBand band10 []
  if 3 ≤ r1.length then r1.take 5
  else
    let r2 := fillBand band9 r1
    if 3 ≤ r2.length then r2.take 5
    else (fillBand band8 r2).take 5

/-- Closed form following the spec's words for the tiered policy: take
the 10-band alone when it already yields at least 3 items, otherwise
extend with the 9-band, otherwise with the 8-band; always capped at 5
and preserving each band's original relative order. -/
def selectSpecForm (ranked : List RankedNews) : List RankedNews :=
  let band10 := ranked.filter (fun i => 10 ≤ i.score)
  let band9 := ranked.filter (fun i => i.score = 9)
  let band8 := ranked.filter (fun i => i.score = 8)
  if 3 ≤ band10.length then band10.take 5
  else if 3 ≤ band10.length + band9.length then (band10 ++ band9).take 5
  else (band10 ++ band9 ++ band8).take 5

theorem fillBand_eq (pool res : List RankedNews) :
    fillBand pool res = res ++ pool.take (5 - res.length) := by
  induction pool generalizing res with
  | nil => simp [fillBand]
  | cons x rest ih =>
    simp only [fillBand]
    by_cases h : res.length < 5
    · rw [if_pos h, ih (res ++ [x])]
      have h5 : 5 - res.length = (5 - (res ++ [x]).length) + 1 := by
        simp only [List.length_append, List.length_singleton]
        omega
      rw [h5, List.take_succ_cons]
      simp
    · rw [if_neg h]
      have h0 : 5 - res.length = 0 := by omega
      rw [h0]
      simp

theorem take_five_append (A B : List RankedNews) :
    A.take 5 ++ B.take (5 - min 5 A.length) = (A ++ B).take 5 := by
  rw [List.take_append_eq_append_take]
  congr 2
  omega

theorem selectTopRanked_eq_specForm (ranked : List RankedNews) :
    selectTopRanked ranked = selectSpecForm ranked := by
  unfold selectTopRanked selectSpecForm
  simp only [fillBand_eq, List.nil_append, List.length_nil, Nat.sub_zero, List.length_take]
  set A := ranked.filter (fun i => decide (10 ≤ i.score)) with hA
  set B := ranked.filter (fun i => decide (i.score = 9)) with hB
  set C := ranked.filter (fun i => decide (i.score = 8)) with hC
  by_cases h1 : 3 ≤ A.length
  · rw [if_pos (by omega), if_pos h1, List.take_take, Nat.min_self]
  · rw [if_neg (by omega), if_neg h1, take_five_append]
    by_cases h2 : 3 ≤ A.length + B.length
    · rw [if_pos ?hc1, if_pos h2, List.take_take, Nat.min_self]
      case hc1 =>
        simp only [List.length_take, List.length_append]
        omega
    · rw [if_neg ?hc2, if_neg h2]
      case hc2 =>
        simp only [List.length_take, List.length_append]
        omega
      have h4 : 5 - (List.take 5 (A ++ B)).length = 5 - 5 ⊓ (A ++ B).length := by
        rw [List.length_take]
      rw [h4, take_five_append, List.take_take, Nat.min_self]

/-- A concrete ranked item: distinct link per index, given score. -/
def rankedOf (n : Nat) (s : Int) : RankedNews :=
  { news := { source := "feed", title := "title " ++ toString n
              link := "https://example.com/item/" ++ toString n
              summary := "", published := none, keywords := [], media_url := none }
    score := s, evaluation_notes := none }

/-- Ranked input with scores 10, 10, 9, 8, 8, 8, 7. -/
def exampleSeven : List RankedNews :=
  [rankedOf 1 10, rankedOf 2 10, rankedOf 3 9, rankedOf 4 8,
   rankedOf 5 8, rankedOf 6 8, rankedOf 7 7]

/-- Ranked input with scores 9, 8, 8. -/
def exampleThree : List RankedNews :=
  [rankedOf 1 9, rankedOf 2 8, rankedOf 3 8]

/-- C2: `_select_top_ranked` equals the tiered-threshold closed form
(fill bands 10, 9, 8 downward, original order, cap 5, stop at ≥ 3);
every selected item comes from the input and scores at least 8; the
result never exceeds 5 items; and the two spec examples evaluate as
claimed. -/
theorem c2_select_tiered_policy :
    (∀ ranked : List RankedNews, selectTopRanked ranked = selectSpecForm ranked) ∧
    (∀ (ranked : List RankedNews) (x : RankedNews),
        x ∈ selectTopRanked ranked → (8 ≤ x.score ∧ x ∈ ranked)) ∧
    (∀ ranked : List RankedNews, (selectTopRanked ranked).length ≤ 5) ∧
    selectTopRanked exampleSeven = [rankedOf 1 10, rankedOf 2 10, rankedOf 3 9] ∧
    selectTopRanked exampleThree = [rankedOf 1 9, rankedOf 2 8, rankedOf 3 8] := by
  have hmem : ∀ (ranked : List RankedNews) (x : RankedNews),
      x ∈ selectTopRanked ranked → (8 ≤ x.score ∧ x ∈ ranked) := by
    intro ranked x hx
    rw [selectTopRanked_eq_specForm] at hx
    simp only [selectSpecForm] at hx
    split at hx
    · have hx' := List.mem_of_mem_take hx
      rw [List.mem_filter] at hx'
      refine ⟨?_, hx'.1⟩
      have := hx'.2
      simp only [decide_eq_true_eq] at this
      omega
    · split at hx
      · have hx' := List.mem_of_mem_take hx
        rw [List.mem_append] at hx'
        rcases hx' with hx' | hx' <;> rw [List.mem_filter] at hx'
        · refine ⟨?_, hx'.1⟩
          have := hx'.2
          simp only [decide_eq_true_eq] at this
          omega
        · refine ⟨?_, hx'.1⟩
          have := hx'.2
          simp only [decide_eq_true_eq] at this
          omega
      · have hx' := List.mem_of_mem_take hx
        rw [List.mem_append, List.mem_append] at hx'
        rcases hx' with (hx' | hx') | hx' <;> rw [List.mem_filter] at hx'
        · refine ⟨?_, hx'.1⟩
          have := hx'.2
          simp only [decide_eq_true_eq] at this
          omega
        · refine ⟨?_, hx'.1⟩
          have := hx'.2
          simp only [decide_eq_true_eq] at this
          omega
        · refine ⟨?_, hx'.1⟩
          have := hx'.2
          simp only [decide_eq_true_eq] at this
          omega
  refine ⟨selectTopRanked_eq_specForm, hmem, ?_, by decide, by decide⟩
  intro ranked
  rw [selectTopRanked_eq_specForm]
  simp only [selectSpecForm]
  split
  · simp only [List.length_take]
    omega
  · split <;>
      · simp only [List.length_take]
        omega

/-- Witness for C2's membership implication at a concrete input. -/
theorem c2_select_tiered_policy_witness :
    8 ≤ (rankedOf 1 10).score ∧ rankedOf 1 10 ∈ exampleSeven :=
  c2_select_tiered_policy.2.1 exampleSeven (rankedOf 1 10) (by decide)

/-! ## Post composer (`app/post_generator.py`) -/

/-- Python exceptions the composer path can raise or catch:
`PostGenerationError`, `TypeError`, `AttributeError`, `KeyError`. -/
inductive PyErr where
  | pgError (msg : String)
  | typeError (msg : String)
  | attributeError (msg : String)
  | keyError (msg : String)
  | imageError (msg : String)
  | requestError (msg : String)
deriving DecidableEq, Repr

/-- A parsed JSON value (result of `json.loads` on the model response). -/
inductive JsonVal where
  | str (s : String)
  | num (n : Int)
  | bool (b : Bool)
  | null
  | arr (xs : List JsonVal)
  | obj (fields : List (String × JsonVal))

/-- Python `a == b` where `b` is a `str` (used by `in` on lists). -/
def jsonEqStr (v : JsonVal) (s : String) : Bool :=
  match v with
  | .str t => t = s
  | _ => false

/-- `startsWithL needle hay`: `hay` begins with `needle`. -/
def startsWithL : List Char → List Char → Bool
  | [], _ => true
  | _ :: _, [] => false
  | a :: as, b :: bs => a = b && startsWithL as bs

/-- `needle` occurs contiguously inside the character list. -/
def isInfixL (needle : List Char) : List Char → Bool
  | [] => startsWithL needle []
  | c :: rest => startsWithL needle (c :: rest) || isInfixL needle rest

/-- Python substring test `needle in hay` on `str`. -/
def containsSub (needle hay : String) : Bool := isInfixL needle.data hay.data

/-- A character Python `str.strip()` removes (ASCII whitespace; the
strings these claims touch contain no exotic Unicode spaces). -/
def isPyWsChar (c : Char) : Bool :=
  c = ' ' ∨ c = '\t' ∨ c = '\n' ∨ c = '\r' ∨ c = '\x0b' ∨ c = '\x0c'

/-- Python `str.strip()`: drop whitespace from both ends. -/
def pyStrip (s : String) : String :=
  String.mk (((s.data.dropWhile isPyWsChar).reverse.dropWhile isPyWsChar).reverse)

/-- Python `field in payload` for a `json.loads` result: key membership
for objects, element equality for lists, substring test for strings, and
`TypeError` for non-iterable values. -/
def pyIn (field : String) (payload : JsonVal) : Except PyErr Bool :=
  match payload with
  | .obj fs => .ok (fs.any (fun kv => kv.1 = field))
  | .arr xs => .ok (xs.any (fun v => jsonEqStr v field))
  | .str s => .ok (containsSub field s)
  | _ => .error (.typeError "argument of type is not iterable")

/-- Python `payload[key]` for a `json.loads` result (`json.loads` keeps
the last binding of a duplicated object key). -/
def pyGetItem (payload : JsonVal) (key : String) : Except PyErr JsonVal :=
  match payload with
  | .obj fs =>
    match fs.reverse.find? (fun kv => kv.1 = key) with
    | some kv => .ok kv.2
    | none => .error (.keyError key)
  | .arr _ => .error (.typeError "list indices must be integers")
  | .str _ => .error (.typeError "string indices must be integers")
  | _ => .error (.typeError "object is not subscriptable")

/-- Keys of an object in first-occurrence order without duplicates
(Python `dict` iteration order). -/
def keysFirstOcc (seen : List String) : List (String × JsonVal) → List String
  | [] => []
  | kv :: rest =>
    if seen.contains kv.1 then keysFirstOcc seen rest
    else kv.1 :: keysFirstOcc (kv.1 :: seen) rest

/-- Python iteration over `hashtags` when `isinstance(hashtags, Iterable)`:
lists yield elements, strings yield one-character strings, dicts yield
keys; numbers, booleans and `None` are not iterable. -/
def pyIterElems (v : JsonVal) : Option (List JsonVal) :=
  match v with
  | .arr xs => some xs
  | .str s => some (s.data.map (fun c => JsonVal.str (String.mk [c])))
  | .obj fs => some ((keysFirstOcc [] fs).map JsonVal.str)
  | _ => none

/-- The comprehension filter of `_validate_payload` line 143:
`isinstance(tag, str) and tag.strip()` — keeps the original tag. -/
def keepTag (v : JsonVal) : Option String :=
  match v with
  | .str s => if pyStrip s = "" then none else some s
  | _ => none

/-- Required-field order from `_validate_payload` line 123. -/
def requiredFields : List String := ["title", "summary", "short_body", "body", "hashtags"]

/-- The field-presence loop of `_validate_payload` lines 123-125. -/
def checkFields (payload : JsonVal) : List String → Except PyErr Unit
  | [] => .ok ()
  | f :: rest => do
    let present ← pyIn f payload
    if present then checkFields payload rest
    else .error (.pgError ("Отсутствует поле " ++ f))

/-- `payload["short_body"].strip()` (line 128): attribute access on a
non-string raises `AttributeError` before any `isinstance` check runs. -/
def pyStripAttr : JsonVal → Except PyErr String
  | .str s => .ok (pyStrip s)
  | _ => .error (.attributeError "strip")

/-- `isinstance(body, str)` gate of lines 130-131. -/
def checkBodyStr : JsonVal → Except PyErr String
  | .str s => .ok s
  | _ => .error (.pgError "Поле body должно быть строкой")

/-- `isinstance(summary, str) and summary.strip()` gate of lines 135-136. -/
def checkSummary : JsonVal → Except PyErr String
  | .str s =>
    if pyStrip s = "" then .error (.pgError "Поле summary должно быть непустой строкой")
    else .ok s
  | _ => .error (.pgError "Поле summary должно быть непустой строкой")

/-- `PostComposer._validate_payload` (`app/post_generator.py` lines
121-146), returning the filtered hashtag list that the code writes back
into `payload["hashtags"]`.  Sequential Python raises are flattened into
nested matches in source order: field presence (123-125), the four
item lookups (126-129) with `.strip()` applied to `short_body` at lookup
time (128), then the `isinstance`/bounds checks (130-145).  A non-string
`short_body` raises `AttributeError`, not `PostGenerationError`, because
line 128 strips before the line 137 `isinstance` check. -/
def validatePayload (payload : JsonVal) : Except PyErr (List String) :=
  match checkFields payload requiredFields with
  | .error e => .error e
  | .ok _ =>
    match pyGetItem payload "body" with
    | .error e => .error e
    | .ok body =>
      match pyGetItem payload "summary" with
      | .error e => .error e
      | .ok summary =>
        match pyGetItem payload "short_body" with
        | .error e => .error e
        | .ok shortRaw =>
          match pyStripAttr shortRaw with
          | .error e => .error e
          | .ok short_body =>
            match pyGetItem payload "hashtags" with
            | .error e => .error e
            | .ok hashtags =>
              match checkBodyStr body with
              | .error e => .error e
              | .ok bodyStr =>
                if bodyStr.length < 800 ∨ 1700 < bodyStr.length then
                  .error (.pgError
                    ("Длина текста вне требуемого диапазона: " ++ toString bodyStr.length))
                else
                  match checkSummary summary with
                  | .error e => .error e
                  | .ok _ =>
                    if pyStrip short_body = "" then
                      .error (.pgError "Поле short_body должно быть непустой строкой")
                    else if 600 < short_body.length then
                      .error (.pgError "Поле short_body превышает 600 символов")
                    else
                      match pyIterElems hashtags with
                      | none => .error (.pgError "Поле hashtags должно быть массивом")
                      | some elems =>
                        if (elems.filterMap keepTag).length < 3 ∨
                            4 < (elems.filterMap keepTag).length then
                          .error (.pgError "Количество хэштегов должно быть от 3 до 4")
                        else .ok (elems.filterMap keepTag)

/-- Required constructor arguments of `GeneratedPost`
(`app/models.py` lines 44-54: seven fields, no defaults). -/
def generatedPostFieldNames : List String :=
  ["title", "translated_title", "body", "summary", "short_body", "average_body", "hashtags"]

/-- The constructed object as Python builds it: keyword arguments in call
order. -/
def PostDict := List (String × JsonVal)

/-- Python dataclass `__init__`: every required field must be supplied,
otherwise the call raises `TypeError`. -/
def dataclassInit (required : List String) (kwargs : List (String × JsonVal)) :
    Except PyErr PostDict :=
  let missing := required.filter (fun f => ¬ kwargs.any (fun kv => kv.1 = f))
  if missing.isEmpty then .ok kwargs
  else
    .error (.typeError ("GeneratedPost.__init__ missing required arguments: "
      ++ String.intercalate ", " missing))

/-- The `try` body of `PostComposer.generate` lines 35-44: parse result
already at hand, validate, then build `GeneratedPost(title=..., body=...,
summary=..., short_body=..., hashtags=...)` — only five of the seven
required fields are supplied at the call site. -/
def tryBody (v : JsonVal) : Except PyErr PostDict := do
  let tags ← validatePayload v
  let title ← pyGetItem v "title"
  let body ← pyGetItem v "body"
  let summary ← pyGetItem v "summary"
  let short ← pyGetItem v "short_body"
  dataclassInit generatedPostFieldNames
    [("title", title), ("body", body), ("summary", summary),
     ("short_body", short), ("hashtags", JsonVal.arr (tags.map JsonVal.str))]

/-- One model response as `generate` sees it: empty `output_text`, text
that `json.loads` rejects, or text parsing to a JSON value. -/
inductive ModelResp where
  | empty
  | invalid
  | json (v : JsonVal)

/-- Message of `_request_post` line 71 for an empty response. -/
def msgEmpty : String := "Пустой ответ модели"

/-- Message of `_parse_payload` line 119. -/
def genMsgJson : String := "Некорректный JSON в ответе модели"

/-- One loop iteration after `_request_post` returned text: `_parse_payload`
then the `try` body. -/
def attemptOutcome : ModelResp → Except PyErr PostDict
  | .empty => .error (.pgError msgEmpty)
  | .invalid => .error (.pgError genMsgJson)
  | .json v => tryBody v

/-- The retry test of `generate` line 47: the exception must be a caught
`PostGenerationError` whose message marks a JSON failure (attempt < 1) or a
length failure (attempt < 2); any other exception propagates. -/
def retryCond (e : PyErr) (attempt : Nat) : Bool :=
  match e with
  | .pgError msg =>
    (containsSub "Некорректный JSON" msg && decide (attempt < 1)) ||
      (containsSub "Длина текста вне" msg && decide (attempt < 2))
  | _ => false

/-- `PostComposer.generate` (`app/post_generator.py` lines 29-53):
`for attempt in range(2)` with the retry conditions above; the second
component counts how many full generation requests (`_request_post`
calls) were issued.  An empty response raises outside the `try` and is
never retried; a second-attempt failure is surfaced either by `raise`
or, for a length failure, by falling out of the loop and re-raising
`last_error` — the same exception either way. -/
def generate (oracle : Nat → ModelResp) : Except PyErr PostDict × Nat :=
  match oracle 0 with
  | .empty => (.error (.pgError msgEmpty), 1)
  | r0 =>
    match attemptOutcome r0 with
    | .ok d => (.ok d, 1)
    | .error e =>
      if retryCond e 0 then
        match oracle 1 with
        | .empty => (.error (.pgError msgEmpty), 2)
        | r1 =>
          match attemptOutcome r1 with
          | .ok d => (.ok d, 2)
          | .error e1 => (.error e1, 2)
      else (.error e, 1)

/-- `Except` success test. -/
def exceptIsOk {α : Type} (e : Except PyErr α) : Bool :=
  match e with
  | .ok _ => true
  | .error _ => false

theorem exceptBind_ok {α β : Type} {e : Except PyErr α} {f : α → Except PyErr β} {b : β}
    (h : (e >>= f) = .ok b) : ∃ a, e = .ok a ∧ f a = .ok b := by
  cases e with
  | error err => exact absurd h (by simp [Bind.bind, Except.bind])
  | ok a => exact ⟨a, rfl, by simpa [Bind.bind, Except.bind] using h⟩

/-- The `TypeError` message of the five-argument `GeneratedPost` call. -/
def ctorErrMsg : String :=
  "GeneratedPost.__init__ missing required arguments: translated_title, average_body"

theorem tryBody_isOk_false (v : JsonVal) : exceptIsOk (tryBody v) = false := by
  unfold tryBody
  cases h1 : validatePayload v with
  | error e => rfl
  | ok tags =>
    cases h2 : pyGetItem v "title" with
    | error e => rfl
    | ok t =>
      cases h3 : pyGetItem v "body" with
      | error e => rfl
      | ok b =>
        cases h4 : pyGetItem v "summary" with
        | error e => rfl
        | ok s =>
          cases h5 : pyGetItem v "short_body" with
          | error e => rfl
          | ok sb => rfl

theorem attemptOutcome_isOk_false (r : ModelResp) : exceptIsOk (attemptOutcome r) = false := by
  cases r with
  | empty => rfl
  | invalid => rfl
  | json v => exact tryBody_isOk_false v

theorem generate_isOk_false (oracle : Nat → ModelResp) :
    exceptIsOk (generate oracle).1 = false := by
  unfold generate
  split
  · rfl
  · split
    · rename_i d heq
      have h := attemptOutcome_isOk_false (oracle 0)
      rw [heq] at h
      exact absurd h (by simp [exceptIsOk])
    · split
      · split
        · rfl
        · split
          · rename_i d1 heq1
            have h := attemptOutcome_isOk_false (oracle 1)
            rw [heq1] at h
            exact absurd h (by simp [exceptIsOk])
          · rfl
      · rfl

/-- Long body of exactly `n` characters. -/
def mkBody (n : Nat) : String := String.mk (List.replicate n 'a')

/-- A payload that satisfies every check of `_validate_payload`. -/
def goodPayload : JsonVal :=
  .obj [("title", .str "Заголовок"), ("summary", .str "Краткое резюме новости"),
        ("short_body", .str "Сжатая версия поста"), ("body", .str (mkBody 800)),
        ("hashtags", .arr [.str "нейросети", .str "бизнес", .str "технологии"])]

/-- C1: `PostComposer.generate` can never return a `GeneratedPost`: the
constructor call supplies only five of the seven required dataclass
fields, so even a response that is valid JSON and passes every
validation constraint raises `TypeError` (`translated_title` and
`average_body` are missing), not a `PostGenerationError` and not a
success — concretely, `goodPayload` passes `_validate_payload` yet
`generate` fails with the constructor `TypeError` on the first attempt. -/
theorem c1_generate_never_returns_post :
    (∀ oracle : Nat → ModelResp, exceptIsOk (generate oracle).1 = false) ∧
    validatePayload goodPayload = .ok ["нейросети", "бизнес", "технологии"] ∧
    generate (fun _ => .json goodPayload) = (.error (.typeError ctorErrMsg), 1) :=
  ⟨generate_isOk_false, rfl, rfl⟩

/-- Same fully-valid payload but with a 700-character body. -/
def lenFailPayload : JsonVal :=
  .obj [("title", .str "Заголовок"), ("summary", .str "Краткое резюме новости"),
        ("short_body", .str "Сжатая версия поста"), ("body", .str (mkBody 700)),
        ("hashtags", .arr [.str "нейросети", .str "бизнес", .str "технологии"])]

/-- The length-validation message for a 700-character body. -/
def lenFailMsg : String := "Длина текста вне требуемого диапазона: 700"

/-- C7 (amended): both failure kinds are retried within the bounded
`range(2)` loop before the error is surfaced — at most two full
generation requests ever happen, and a persistent malformed-JSON
response and a persistent out-of-range-length response each consume
exactly two requests: JSON failures do not get fewer retries than
length failures. -/
theorem c7_bounded_retries :
    (∀ oracle : Nat → ModelResp, (generate oracle).2 ≤ 2) ∧
    (∀ oracle : Nat → ModelResp, (∀ k, oracle k = .invalid) →
        generate oracle = (.error (.pgError genMsgJson), 2)) ∧
    (∀ oracle : Nat → ModelResp, (∀ k, oracle k = .json lenFailPayload) →
        generate oracle = (.error (.pgError lenFailMsg), 2)) := by
  refine ⟨?_, ?_, ?_⟩
  · intro oracle
    unfold generate
    split
    · simp
    · split
      · simp
      · split
        · split
          · simp
          · split <;> simp
        · simp
  · intro oracle h
    unfold generate
    rw [h 0, h 1]
    rfl
  · intro oracle h
    unfold generate
    rw [h 0, h 1]
    rfl

/-- Witness for C7's amended theorem at the two persistent-failure
oracles. -/
theorem c7_bounded_retries_witness :
    generate (fun _ => .invalid) = (.error (.pgError genMsgJson), 2) ∧
    generate (fun _ => .json lenFailPayload) = (.error (.pgError lenFailMsg), 2) :=
  ⟨c7_bounded_retries.2.1 (fun _ => .invalid) (fun _ => rfl),
   c7_bounded_retries.2.2 (fun _ => .json lenFailPayload) (fun _ => rfl)⟩

/-- Counterexample for C7 as stated: a persistent malformed-JSON response
and a persistent length failure each issue exactly 2 full requests —
JSON failures do not get fewer retries. -/
theorem c7_equal_retries_counterexample :
    (generate (fun _ => .invalid)).2 = 2 ∧
    (generate (fun _ => .json lenFailPayload)).2 = 2 ∧
    ((generate (fun _ => .invalid)).2 < (generate (fun _ => .json lenFailPayload)).2) = False := by
  refine ⟨rfl, rfl, ?_⟩
  rw [show (generate (fun _ => .invalid)).2 = 2 from rfl,
    show (generate (fun _ => .json lenFailPayload)).2 = 2 from rfl]
  simp

theorem keepTag_some {v : JsonVal} {t : String} (h : keepTag v = some t) :
    t ≠ "" ∧ pyStrip t ≠ "" := by
  cases v with
  | str s =>
    rw [show keepTag (JsonVal.str s) = if pyStrip s = "" then none else some s from rfl] at h
    by_cases hc : pyStrip s = ""
    · rw [if_pos hc] at h
      exact Option.noConfusion h
    · rw [if_neg hc] at h
      have hst : s = t := by simpa using h
      subst hst
      refine ⟨?_, hc⟩
      intro he
      apply hc
      rw [he]
      rfl
  | num n => exact Option.noConfusion h
  | bool b => exact Option.noConfusion h
  | null => exact Option.noConfusion h
  | arr xs => exact Option.noConfusion h
  | obj fs => exact Option.noConfusion h

/-- C8 (amended): every hashtag list accepted by `_validate_payload` has
3 or 4 entries, each a string with non-whitespace content, and equals the
iteration order of the payload's `hashtags` field filtered to such
strings — original order kept, duplicates NOT removed (see the
counterexample). -/
theorem c8_hashtags_validated (payload : JsonVal) (tags : List String)
    (h : validatePayload payload = .ok tags) :
    (3 ≤ tags.length ∧ tags.length ≤ 4) ∧
    (∀ t ∈ tags, t ≠ "" ∧ pyStrip t ≠ "") ∧
    (∃ hs elems, pyGetItem payload "hashtags" = .ok hs ∧ pyIterElems hs = some elems ∧
      tags = elems.filterMap keepTag) := by
  unfold validatePayload at h
  split at h
  · exact Except.noConfusion h
  · split at h
    · exact Except.noConfusion h
    · split at h
      · exact Except.noConfusion h
      · split at h
        · exact Except.noConfusion h
        · split at h
          · exact Except.noConfusion h
          · split at h
            · exact Except.noConfusion h
            · rename_i hashtags hget
              split at h
              · exact Except.noConfusion h
              · split at h
                · exact Except.noConfusion h
                · split at h
                  · exact Except.noConfusion h
                  · split at h
                    · exact Except.noConfusion h
                    · split at h
                      · exact Except.noConfusion h
                      · split at h
                        · exact Except.noConfusion h
                        · rename_i elems hie
                          split at h
                          · exact Except.noConfusion h
                          · rename_i hlen
                            simp only [Except.ok.injEq] at h
                            subst h
                            refine ⟨by omega, ?_, hashtags, elems, hget, hie, rfl⟩
                            intro t ht
                            rw [List.mem_filterMap] at ht
                            obtain ⟨a, _, hkeep⟩ := ht
                            exact keepTag_some hkeep

/-- Witness for C8's amended theorem at `goodPayload`. -/
theorem c8_hashtags_validated_witness :
    (3 ≤ (["нейросети", "бизнес", "технологии"] : List String).length ∧
      (["нейросети", "бизнес", "технологии"] : List String).length ≤ 4) ∧
    (∀ t ∈ (["нейросети", "бизнес", "технологии"] : List String), t ≠ "" ∧ pyStrip t ≠ "") ∧
    (∃ hs elems, pyGetItem goodPayload "hashtags" = .ok hs ∧ pyIterElems hs = some elems ∧
      (["нейросети", "бизнес", "технологии"] : List String) = elems.filterMap keepTag) :=
  c8_hashtags_validated goodPayload ["нейросети", "бизнес", "технологии"] rfl

/-- Fully valid payload whose hashtag list repeats one tag three times. -/
def dupPayload : JsonVal :=
  .obj [("title", .str "Заголовок"), ("summary", .str "Краткое резюме новости"),
        ("short_body", .str "Сжатая версия поста"), ("body", .str (mkBody 800)),
        ("hashtags", .arr [.str "ai", .str "ai", .str "ai"])]

/-- Counterexample for C8 as stated: duplicates are NOT removed — a
payload whose hashtags are `["ai", "ai", "ai"]` passes validation with
all three copies kept (deduplication would have left `["ai"]`). -/
theorem c8_duplicates_kept_counterexample :
    validatePayload dupPayload = .ok ["ai", "ai", "ai"] ∧
    (["ai", "ai", "ai"] : List String).dedup = ["ai"] ∧
    (["ai", "ai", "ai"] : List String).Nodup = False := by
  refine ⟨rfl, by simp, by simp⟩

/-! ## Pipeline runner (`app/orchestrator.py`, `PipelineRunner.run`) -/

/-- `PipelineStats` (`app/orchestrator.py` lines 24-31). -/
structure PipelineStats where
  processed : Nat
  accepted : Nat
  published : Nat
  failed : Nat
deriving DecidableEq, Repr

/-- The collaborators `PipelineRunner` drives, plus ambient time.
`shouldReset`/`clearOk` model the reset-check and `clear_records` call,
which touch only the sheet, never the statistics.  `compose` and
`selectImage` return `.error` for ANY exception (`PostGenerationError`
or other) — `run` counts both identically.  `evalMany` is the injected
scorer collaborator. -/
structure RunEnv where
  shouldReset : Bool
  clearOk : Bool
  fetchLinks : Except Unit (List String)
  collected : List NewsItem
  evalMany : List NewsItem → List RankedNews
  compose : NewsItem → Except Unit GeneratedPost
  selectImage : NewsItem → GeneratedPost → Except Unit ImageAsset
  appendRecords : List PublicationRecord → Except Unit Unit
  nowUtc : Int
  nowLocal : String

/-- `fetch_existing_links` with the fail-open handler of `run` lines
68-72: a fetch failure is treated as "no existing links". -/
def existingLinks (env : RunEnv) : List String :=
  match env.fetchLinks with
  | .ok links => links
  | .error _ => []

/-- `PipelineRunner._filter_recent` (lines 147-161): drop items without
a publish time or older than 12 hours (timestamps already normalized to
UTC epoch seconds in the model). -/
def filterRecent (nowUtc : Int) (items : List NewsItem) : List NewsItem :=
  items.filter (fun item =>
    match item.published with
    | none => false
    | some published => nowUtc - 12 * 3600 ≤ published)

/-- `run` lines 74-75: drop already-published links, then recency. -/
def recentOf (env : RunEnv) : List NewsItem :=
  filterRecent env.nowUtc
    (env.collected.filter (fun item => ¬ (existingLinks env).contains item.link))

/-- Lowercased ASCII string (`source.lower()`). -/
def lowerAscii (s : String) : String := String.mk (s.data.map Char.toLower)

/-- `PipelineRunner._image_source_label` (lines 163-170). -/
def imageSourceLabel (source : String) : String :=
  if lowerAscii source = "rss" then "RSS"
  else if lowerAscii source = "pexels" then "Библиотека"
  else if lowerAscii source = "openai" then "Генерация"
  else source

/-- `PipelineRunner._build_record` (lines 114-136): status `"Revised"`
for score ≥ 9, else `"Written"`; title taken from the post's translated
title; trailing fields keep their dataclass defaults. -/
def buildRecord (nowLocal : String) (score : Int) (post : GeneratedPost)
    (image : ImageAsset) (news : NewsItem) : PublicationRecord :=
  { date := nowLocal, source := news.source, title := post.translated_title
    link := news.link, summary := post.summary, post := post, image := image
    score := score, image_source := imageSourceLabel image.source
    status := if 9 ≤ score then "Revised" else "Written"
    notes := none, telegraph_link := none, vk_post_link := none, tg_post_link := none }

/-- One iteration of the per-item loop (`run` lines 91-102): compose,
resolve image, build the record; ANY failure yields `none` (counted as
one failure) and the loop moves on. -/
def processItem (env : RunEnv) (r : RankedNews) : Option PublicationRecord :=
  match env.compose r.news with
  | .error _ => none
  | .ok post =>
    match env.selectImage r.news post with
    | .error _ => none
    | .ok image => some (buildRecord env.nowLocal r.score post image r.news)

/-- The whole per-item loop: records in order plus the failure count. -/
def processAccepted (env : RunEnv) : List RankedNews → List PublicationRecord × Nat
  | [] => ([], 0)
  | r :: rest =>
    let tail := processAccepted env rest
    match processItem env r with
    | some rec => (rec :: tail.1, tail.2)
    | none => (tail.1, tail.2 + 1)

/-- `run` line 83: the accepted publish set. -/
def acceptedOf (env : RunEnv) : List RankedNews :=
  selectTopRanked (env.evalMany (recentOf env))

/-- Records accumulated by the per-item loop for this run. -/
def recordsOf (env : RunEnv) : List PublicationRecord :=
  (processAccepted env (acceptedOf env)).1

/-- Per-item failures counted by the loop for this run. -/
def itemFailuresOf (env : RunEnv) : Nat :=
  (processAccepted env (acceptedOf env)).2

/-- `PipelineRunner.run` (`app/orchestrator.py` lines 58-112): the
reset-check and `clear_records` only touch the sheet; a failed
`fetch_existing_links` fails open; early return when nothing is recent
or nothing is accepted; per-item failures are isolated and counted;
the final `append_records` is a single batch call — on success every
record counts as published, on failure every record in the batch is
added to `failed`. -/
def run (env : RunEnv) : PipelineStats :=
  if (recentOf env).isEmpty then
    { processed := (recentOf env).length, accepted := 0, published := 0, failed := 0 }
  else if (acceptedOf env).isEmpty then
    { processed := (recentOf env).length, accepted := (acceptedOf env).length
      published := 0, failed := 0 }
  else if (recordsOf env).isEmpty then
    { processed := (recentOf env).length, accepted := (acceptedOf env).length
      published := 0, failed := itemFailuresOf env }
  else
    match env.appendRecords (recordsOf env) with
    | .ok _ =>
      { processed := (recentOf env).length, accepted := (acceptedOf env).length
        published := (recordsOf env).length, failed := itemFailuresOf env }
    | .error _ =>
      { processed := (recentOf env).length, accepted := (acceptedOf env).length
        published := 0, failed := itemFailuresOf env + (recordsOf env).length }

theorem processAccepted_records (env : RunEnv) (items : List RankedNews) :
    (processAccepted env items).1 = items.filterMap (processItem env) := by
  induction items with
  | nil => rfl
  | cons r rest ih =>
    simp only [processAccepted, List.filterMap_cons]
    cases processItem env r <;> simp [ih]

theorem processAccepted_count (env : RunEnv) (items : List RankedNews) :
    (processAccepted env items).2 + (processAccepted env items).1.length = items.length := by
  induction items with
  | nil => rfl
  | cons r rest ih =>
    simp only [processAccepted]
    cases processItem env r <;> simp only [List.length_cons] <;> omega

/-- C10: at the end of every run, published + failed = accepted: each
accepted item either reaches the batch (counted in `published` when the
single `append_records` call succeeds) or contributes exactly one to
`failed`, via its own per-item failure or via the batch-persistence
failure charging every record in the batch. -/
theorem c10_stats_invariant :
    ∀ env : RunEnv, (run env).published + (run env).failed = (run env).accepted := by
  intro env
  have hcnt := processAccepted_count env (acceptedOf env)
  unfold run
  by_cases h1 : (recentOf env).isEmpty
  · rw [if_pos h1]
    rfl
  · rw [if_neg h1]
    by_cases h2 : (acceptedOf env).isEmpty
    · rw [if_pos h2]
      have hlen : (acceptedOf env).length = 0 := by
        rw [List.isEmpty_iff] at h2
        simp [h2]
      simp [hlen]
    · rw [if_neg h2]
      by_cases h3 : (recordsOf env).isEmpty
      · rw [if_pos h3]
        have h3' : (recordsOf env).length = 0 := by
          rw [List.isEmpty_iff] at h3
          simp [h3]
        unfold recordsOf itemFailuresOf at *
        dsimp only
        omega
      · rw [if_neg h3]
        split
        · unfold recordsOf itemFailuresOf at *
          dsimp only
          omega
        · unfold recordsOf itemFailuresOf at *
          dsimp only
          omega

/-- Concrete recently-published news item number `n`. -/
def newsP (n : Nat) : NewsItem :=
  { source := "Test", title := "AI breakthrough " ++ toString n
    link := "https://example.com/story/" ++ toString n, summary := "Summary"
    published := some 1000000, keywords := ["AI"], media_url := none }

/-- A concrete well-formed post for a news item. -/
def postFor (item : NewsItem) : GeneratedPost :=
  { title := "RU " ++ item.title, translated_title := "Перевод " ++ item.title
    body := mkBody 1500, summary := "Краткое описание", short_body := "Короткая версия"
    average_body := "Средний формат", hashtags := ["AI", "Tech", "News"] }

/-- Scenario: two fresh items, both scored 10 and accepted; the composer
raises for the first and succeeds for the second; image resolution and
batch persistence succeed. -/
def scenarioEnv : RunEnv :=
  { shouldReset := false, clearOk := true, fetchLinks := .ok []
    collected := [newsP 1, newsP 2]
    evalMany := fun items => items.map (fun i => { news := i, score := 10, evaluation_notes := none })
    compose := fun n => if n.link = (newsP 1).link then .error () else .ok (postFor n)
    selectImage := fun _ _ =>
      .ok { url := "https://images.example.com/test.jpg", source := "rss", prompt := none }
    appendRecords := fun _ => .ok ()
    nowUtc := 1000000, nowLocal := "2025-01-01 07:00:00" }

/-- C3: the per-item loop isolates failures — the records are exactly the
successes in order and each failing item adds exactly one to the failure
count without stopping the loop; a failing batch `append_records` call
charges every record of the batch to `failed`; and the concrete
two-item scenario (one composer failure, persistence succeeds) yields
accepted = 2, published = 1, failed = 1. -/
theorem c3_failure_isolation :
    (∀ (env : RunEnv) (items : List RankedNews),
        (processAccepted env items).1 = items.filterMap (processItem env) ∧
        (processAccepted env items).2 + (processAccepted env items).1.length = items.length) ∧
    (∀ env : RunEnv, (recentOf env).isEmpty = false → (recordsOf env).isEmpty = false →
        env.appendRecords (recordsOf env) = .error () →
        (run env).published = 0 ∧
        (run env).failed = itemFailuresOf env + (recordsOf env).length) ∧
    run scenarioEnv = { processed := 2, accepted := 2, published := 1, failed := 1 } := by
  refine ⟨fun env items => ⟨processAccepted_records env items, processAccepted_count env items⟩,
    ?_, rfl⟩
  intro env h1 h3 happ
  have h2 : (acceptedOf env).isEmpty = false := by
    cases hA : acceptedOf env with
    | nil =>
      exfalso
      have hrec : recordsOf env = [] := by
        unfold recordsOf
        rw [hA]
        rfl
      rw [hrec] at h3
      exact Bool.noConfusion h3
    | cons a l => rfl
  unfold run
  rw [if_neg (by simp [h1]), if_neg (by simp [h2]), if_neg (by simp [h3]), happ]
  exact ⟨rfl, rfl⟩

/-- Witness for C3's batch-failure clause: the scenario environment with
a failing `append_records` call reports published = 0 and
failed = 0 per-item failures + all batch records. -/
theorem c3_failure_isolation_witness :
    (run { scenarioEnv with appendRecords := fun _ => .error () }).published = 0 ∧
    (run { scenarioEnv with appendRecords := fun _ => .error () }).failed =
      itemFailuresOf { scenarioEnv with appendRecords := fun _ => .error () } +
        (recordsOf { scenarioEnv with appendRecords := fun _ => .error () }).length :=
  c3_failure_isolation.2.1 { scenarioEnv with appendRecords := fun _ => .error () }
    rfl rfl rfl

/-! ## Image pipeline (`app/image_pipeline.py`) -/

/-- `PexelsConfig` (`app/config.py` lines 33-38): exactly two fields —
`api_key` and `timeout`.  There is no `enabled` field. -/
structure PexelsConfig where
  api_key : String
  timeout : Int
deriving DecidableEq, Repr

/-- Dataclass field names of `PexelsConfig` (`app/config.py` lines 33-38). -/
def pexelsConfigFields : List String := ["api_key", "timeout"]

/-- Dataclass field names of `OpenAIConfig` (`app/config.py` lines 23-30). -/
def openaiConfigFields : List String := ["api_key", "model_rank", "model_post", "model_image"]

/-- `_ImageCandidate` (`app/image_pipeline.py` lines 24-28); the payload
bytes are abstracted to an opaque string. -/
structure ImageCandidate where
  data : String
  source : String
  prompt : Option String
deriving DecidableEq, Repr

/-- `ImageSelector._from_rss` (lines 60-72): `None` when the item has no
(or an empty) media URL; otherwise the download collaborator decides —
it returns `none` for any network error or non-image content type, all
of which the source catches. -/
def fromRss (download : String → Option ImageCandidate) (news : NewsItem) :
    Option ImageCandidate :=
  match news.media_url with
  | none => none
  | some url => if url = "" then none else download url

/-- `ImageSelector._from_pexels` (lines 74-109).  Line 76 evaluates
`self._pexels.enabled` before the `try` block starts; `PexelsConfig`
declares only the fields in `pexelsConfigFields`, so the attribute
lookup raises `AttributeError` and nothing after it (query construction,
the search call) can run.  Were the attribute present, the search
collaborator would decide the rest (every network or response-shape
failure inside the `try` is caught and yields `None`). -/
def fromPexels (cfg : PexelsConfig) (search : String → Option ImageCandidate)
    (news : NewsItem) (post : GeneratedPost) : Except PyErr (Option ImageCandidate) :=
  if pexelsConfigFields.contains "enabled" then
    .ok (search (if ¬ news.title = "" then news.title else "artificial intelligence"))
  else .error (.attributeError "PexelsConfig object has no attribute enabled")

/-- `ImageSelector._build_image_prompt` (lines 136-143): headline plus
truncated summary and post gist. -/
def buildImagePrompt (news : NewsItem) (post : GeneratedPost) : String :=
  "Photorealistic illustration for an article about artificial intelligence.\n"
    ++ "Headline: " ++ news.title ++ "\n"
    ++ "Summary: " ++ String.mk (news.summary.data.take 200) ++ "\n"
    ++ "Post gist: " ++ String.mk (post.body.data.take 200)

/-- `ImageSelector._generate_image` (lines 111-134) against the shipped
`OpenAIConfig`.  With no injected client, `_ensure_client` (line 177)
reads `self._openai_cfg.api_key_image` — not a field — and the
`AttributeError` escapes (line 114 is outside the `try`).  With an
injected client, building the call kwargs reads
`self._openai_cfg.image_size` (line 119) — not a field either — inside
the `try`, so the `except Exception` catches it and the method returns
`None`. -/
def generateImage (client : Option Unit) (gen : String → Option ImageCandidate)
    (news : NewsItem) (post : GeneratedPost) : Except PyErr (Option ImageCandidate) :=
  match client with
  | none =>
    if openaiConfigFields.contains "api_key_image" then
      .ok (gen (buildImagePrompt news post))
    else .error (.attributeError "OpenAIConfig object has no attribute api_key_image")
  | some _ =>
    if openaiConfigFields.contains "image_size" then
      .ok (gen (buildImagePrompt news post))
    else .ok none

/-- `ImageSelector.select` (lines 48-58): the `or`-chain over the three
sources (a raised exception propagates — `select` catches nothing),
then the upload.  `upload c = .error` models a transport failure that
exhausts the 3-attempt retry wrapper; `.ok none` a response without a
usable URL (line 171); `.ok (some url)` success. -/
def selectImageAsset (cfg : PexelsConfig) (client : Option Unit)
    (download search gen : String → Option ImageCandidate)
    (upload : String → Except Unit (Option String))
    (news : NewsItem) (post : GeneratedPost) : Except PyErr ImageAsset := do
  let candidate ← (match fromRss download news with
    | some c => Except.ok (some c)
    | none => do
      let c2 ← fromPexels cfg search news post
      match c2 with
      | some c => Except.ok (some c)
      | none => generateImage client gen news post)
  match candidate with
  | none => Except.error (.imageError "Не удалось получить изображение")
  | some c =>
    match upload c.data with
    | .error _ => Except.error (.requestError "upload failed after retries")
    | .ok none => Except.error (.imageError "Сервис не вернул ссылку на изображение")
    | .ok (some url) => Except.ok { url := url, source := c.source, prompt := c.prompt }

/-- Concrete candidate for the C9 evaluation. -/
def candEx : ImageCandidate := { data := "pexels-bytes", source := "pexels", prompt := none }

/-- C9: the claimed skip-when-disabled behavior cannot occur — the
shipped `PexelsConfig` has no `enabled` field at all, so whenever the
embedded-media source yields no candidate, `select` raises
`AttributeError` instead of falling through to the generative fallback;
in particular the result never depends on the image-search collaborator
(no search query is ever issued), and even with every other collaborator
functional the concrete call errors. -/
theorem c9_pexels_enabled_attribute_error :
    (∀ (cfg : PexelsConfig) (client : Option Unit)
        (download search gen : String → Option ImageCandidate)
        (upload : String → Except Unit (Option String))
        (news : NewsItem) (post : GeneratedPost),
        fromRss download news = none →
        selectImageAsset cfg client download search gen upload news post =
          .error (.attributeError "PexelsConfig object has no attribute enabled")) ∧
    pexelsConfigFields.contains "enabled" = false ∧
    selectImageAsset { api_key := "pexels", timeout := 20 } (some ())
        (fun _ => none) (fun _ => some candEx) (fun _ => some candEx)
        (fun _ => .ok (some "https://freeimage.host/img/1")) newsA (postFor (newsP 1)) =
      .error (.attributeError "PexelsConfig object has no attribute enabled") := by
  refine ⟨?_, rfl, rfl⟩
  intro cfg client download search gen upload news post h
  unfold selectImageAsset
  rw [h]
  rfl

/-- Witness for C9's conditional clause at a concrete input. -/
theorem c9_pexels_enabled_attribute_error_witness :
    selectImageAsset { api_key := "k", timeout := 5 } none
        (fun _ => none) (fun _ => none) (fun _ => none) (fun _ => .error ()) newsB
        (postFor (newsP 2)) =
      .error (.attributeError "PexelsConfig object has no attribute enabled") :=
  c9_pexels_enabled_attribute_error.1 { api_key := "k", timeout := 5 } none
    (fun _ => none) (fun _ => none) (fun _ => none) (fun _ => .error ()) newsB
    (postFor (newsP 2)) rfl

/-! ## RSS collector (`app/rss.py`) -/

/-- `RawFeedEntry` (`app/models.py` lines 10-19). -/
structure RawFeedEntry where
  source : String
  title : String
  link : String
  summary : String
  published : Option Int
  media_url : Option String
deriving DecidableEq, Repr

/-- The relevant slice of `RSSConfig` (`app/config.py` lines 13-20);
feed sources are passed to `collect` as already-fetched entry lists. -/
structure RSSConfigM where
  keywords : List String
  simNum : Nat
  simDen : Nat
  max_items : Nat

/-- Lowercased string (Python `str.lower()` on the ASCII-and-Cyrillic
strings in scope). -/
def lowerStr (s : String) : String := String.mk (s.data.map Char.toLower)

/-- Length of the common run at the heads of two character lists. -/
def runLen : List Char → List Char → Nat
  | x :: xs, y :: ys => if x = y then runLen xs ys + 1 else 0
  | _, _ => 0

/-- `difflib.SequenceMatcher.find_longest_match` over the full ranges:
scan all start pairs `(i, j)` in lexicographic order and keep the first
longest run — the same block difflib selects (it scans end positions in
the same order with a strictly-greater update; equal-size blocks have
equally-ordered starts and ends).  `SequenceMatcher(None, a, b)` on
strings shorter than 200 characters has no junk and inactive autojunk. -/
def findBestMatch (a b : List Char) : Nat × Nat × Nat :=
  (List.range a.length).foldl (fun best i =>
    (List.range b.length).foldl (fun best j =>
      let k := runLen (a.drop i) (b.drop j)
      if best.2.2 < k then (i, j, k) else best) best) (0, 0, 0)

/-- Total matched size over `get_matching_blocks`: take the longest
match, recurse on the pieces left and right of it.  The guard restates
facts that hold whenever the best size is positive, and makes the
recursion well-founded. -/
def matchTotalGo : Nat → List Char → List Char → Nat
  | 0, _, _ => 0
  | fuel + 1, a, b =>
    if 0 < (findBestMatch a b).2.2 ∧ (findBestMatch a b).1 < a.length then
      matchTotalGo fuel (a.take (findBestMatch a b).1) (b.take (findBestMatch a b).2.1) +
        (findBestMatch a b).2.2 +
        matchTotalGo fuel (a.drop ((findBestMatch a b).1 + (findBestMatch a b).2.2))
          (b.drop ((findBestMatch a b).2.1 + (findBestMatch a b).2.2))
    else 0

/-- Total matched size over `get_matching_blocks`: take the longest
match, recurse on the pieces left and right of it.  The guard restates
facts that hold whenever the best size is positive; each recursive call
strictly shrinks `a`, so `a.length + 1` units of fuel always suffice
(the fuel keeps the recursion structural). -/
def matchTotal (a b : List Char) : Nat := matchTotalGo (a.length + 1) a b

/-- `SequenceMatcher.ratio() >= num/den` in exact rational arithmetic:
`ratio = 2*M / (len(a)+len(b))`, and `1.0` when both are empty, so the
comparison is `num * (len(a)+len(b)) ≤ den * 2*M`. -/
def ratioGe (num den : Nat) (a b : List Char) : Bool :=
  if a.length + b.length = 0 then decide (num ≤ den)
  else decide (num * (a.length + b.length) ≤ den * (2 * matchTotal a b))

/-- `RSSCollector._is_similar` (`app/rss.py` lines 108-113): the new
title against each already-accepted title, lowercased, first hit wins. -/
def isSimilar (num den : Nat) (title : String) (seenTitles : List String) : Bool :=
  seenTitles.any (fun seen => ratioGe num den (lowerStr title).data (lowerStr seen).data)

/-- `RSSCollector._match_keywords` (lines 101-106): case-insensitive
substring containment over title+summary; no keywords means accept. -/
def matchKeywords (keywords : List String) (e : RawFeedEntry) : Bool :=
  if keywords.isEmpty then true
  else keywords.any (fun kw =>
    containsSub (lowerStr kw) (lowerStr (e.title ++ " " ++ e.summary)))

/-- `RSSCollector._normalize` (lines 115-126): the keywords that occur
in the summary, lowercased comparison. -/
def normalizeEntry (keywords : List String) (e : RawFeedEntry) : NewsItem :=
  { source := e.source, title := e.title, link := e.link, summary := e.summary
    published := e.published
    keywords := keywords.filter (fun kw => containsSub (lowerStr kw) (lowerStr e.summary))
    media_url := e.media_url }

/-- The entry loop of `RSSCollector.collect` (`app/rss.py` lines 37-50):
reject empty or already-seen links, then keyword misses, then titles
similar to an already-accepted title; accepted entries extend the seen
links/titles and the result, and the loop returns early once
`max_items` is reached. -/
def collectGo (cfg : RSSConfigM) :
    List RawFeedEntry → List String → List String → List NewsItem → List NewsItem
  | [], _, _, result => result
  | e :: rest, seenLinks, seenTitles, result =>
    if e.link = "" ∨ seenLinks.contains e.link then
      collectGo cfg rest seenLinks seenTitles result
    else if ¬ matchKeywords cfg.keywords e then
      collectGo cfg rest seenLinks seenTitles result
    else if isSimilar cfg.simNum cfg.simDen e.title seenTitles then
      collectGo cfg rest seenLinks seenTitles result
    else
      let result' := result ++ [normalizeEntry cfg.keywords e]
      if cfg.max_items ≤ result'.length then result'
      else collectGo cfg rest (e.link :: seenLinks) (e.title :: seenTitles) result'

/-- `RSSCollector.collect` (lines 24-51): iterate the configured sources,
skipping any whose fetch failed (`none`), with one shared dedup state;
the early return on `max_items` spans sources, so the run equals the
loop over the concatenation of the successful sources' entries. -/
def collect (cfg : RSSConfigM) (sources : List (Option (List RawFeedEntry))) : List NewsItem :=
  collectGo cfg (sources.filterMap id).flatten [] [] []

/-- The relation every pair of retained items satisfies, in collection
order: distinct links, and the later title not similar to the earlier
one (the code's comparison order: new title against seen title). -/
def DistinctRetained (num den : Nat) (x y : NewsItem) : Prop :=
  ¬ y.link = x.link ∧ isSimilar num den y.title [x.title] = false

theorem pairwise_snoc {α : Type} {R : α → α → Prop} {l : List α} {x : α}
    (h : l.Pairwise R) (hx : ∀ a ∈ l, R a x) : (l ++ [x]).Pairwise R := by
  rw [List.pairwise_append]
  refine ⟨h, List.pairwise_singleton R x, ?_⟩
  intro a ha b hb
  have hbx : b = x := by simpa using hb
  subst hbx
  exact hx a ha

theorem collectGo_pairwise (cfg : RSSConfigM) (entries : List RawFeedEntry)
    (seenLinks seenTitles : List String) (result : List NewsItem)
    (hpw : result.Pairwise (DistinctRetained cfg.simNum cfg.simDen))
    (hinv : ∀ x ∈ result, seenLinks.contains x.link = true ∧ x.title ∈ seenTitles) :
    (collectGo cfg entries seenLinks seenTitles result).Pairwise
      (DistinctRetained cfg.simNum cfg.simDen) := by
  induction entries generalizing seenLinks seenTitles result with
  | nil => simpa [collectGo] using hpw
  | cons e rest ih =>
    simp only [collectGo]
    by_cases h1 : e.link = "" ∨ seenLinks.contains e.link
    · rw [if_pos h1]
      exact ih seenLinks seenTitles result hpw hinv
    · rw [if_neg h1]
      by_cases h2 : ¬ matchKeywords cfg.keywords e
      · rw [if_pos h2]
        exact ih seenLinks seenTitles result hpw hinv
      · rw [if_neg h2]
        by_cases h3 : isSimilar cfg.simNum cfg.simDen e.title seenTitles = true
        · rw [if_pos h3]
          exact ih seenLinks seenTitles result hpw hinv
        · rw [if_neg h3]
          have h3' : isSimilar cfg.simNum cfg.simDen e.title seenTitles = false :=
            Bool.eq_false_iff.mpr h3
          have hlink : seenLinks.contains e.link = false := by
            rcases Bool.eq_false_or_eq_true (seenLinks.contains e.link) with ht | hf
            · exact absurd (Or.inr ht) h1
            · exact hf
          have hnew : ∀ a ∈ result, DistinctRetained cfg.simNum cfg.simDen a
              (normalizeEntry cfg.keywords e) := by
            intro a ha
            obtain ⟨haL, haT⟩ := hinv a ha
            constructor
            · show ¬ (normalizeEntry cfg.keywords e).link = a.link
              intro hEq
              have : seenLinks.contains e.link = true := by
                have he : e.link = a.link := hEq
                rw [he]
                exact haL
              rw [hlink] at this
              exact Bool.noConfusion this
            · show isSimilar cfg.simNum cfg.simDen
                (normalizeEntry cfg.keywords e).title [a.title] = false
              have hall : ∀ s ∈ seenTitles,
                  ratioGe cfg.simNum cfg.simDen (lowerStr e.title).data
                    (lowerStr s).data = false := by
                intro s hs
                have := (List.any_eq_false).mp (by simpa [isSimilar] using h3') s hs
                simpa using this
              simp only [isSimilar, normalizeEntry, List.any_eq_false]
              intro s hs
              have hsa : s = a.title := by simpa using hs
              subst hsa
              simpa using hall a.title haT
          have hpw' : (result ++ [normalizeEntry cfg.keywords e]).Pairwise
              (DistinctRetained cfg.simNum cfg.simDen) := pairwise_snoc hpw hnew
          by_cases h4 : cfg.max_items ≤ (result ++ [normalizeEntry cfg.keywords e]).length
          · rw [if_pos h4]
            exact hpw'
          · rw [if_neg h4]
            refine ih (e.link :: seenLinks) (e.title :: seenTitles)
              (result ++ [normalizeEntry cfg.keywords e]) hpw' ?_
            intro x hx
            rw [List.mem_append] at hx
            rcases hx with hx | hx
            · obtain ⟨hL, hT⟩ := hinv x hx
              constructor
              · simp only [List.contains_cons]
                rw [hL]
                simp
              · exact List.mem_cons_of_mem _ hT
            · have hxe : x = normalizeEntry cfg.keywords e := by simpa using hx
              subst hxe
              constructor
              · simp [normalizeEntry, List.contains_cons]
              · simp [normalizeEntry]

/-- C6 (amended): within one run of `collect` the retained items are
pairwise distinct — no two share a link, and no later retained title is
similar (ratio ≥ threshold) to an earlier retained one — equivalently
an entry that duplicates the link of an already-accepted entry, or whose
title is similar to an already-accepted title, is dropped, and the
retained links are without duplicates.  (Only *accepted* entries anchor
the comparison: a later entry similar solely to an earlier rejected
entry can itself be retained — see the counterexample.) -/
theorem c6_dedup_pairwise :
    ∀ (cfg : RSSConfigM) (sources : List (Option (List RawFeedEntry))),
      (collect cfg sources).Pairwise (DistinctRetained cfg.simNum cfg.simDen) ∧
      ((collect cfg sources).map (fun item => item.link)).Nodup := by
  intro cfg sources
  have hpw : (collect cfg sources).Pairwise (DistinctRetained cfg.simNum cfg.simDen) :=
    collectGo_pairwise cfg (sources.filterMap id).flatten [] [] []
      List.Pairwise.nil (by intro x hx; exact absurd hx (List.not_mem_nil x))
  refine ⟨hpw, ?_⟩
  unfold List.Nodup
  rw [List.pairwise_map]
  exact hpw.imp (fun hab he => hab.1 he.symm)

/-- Counterexample entry A: title `abcdefghij`. -/
def entA : RawFeedEntry :=
  { source := "feed", title := "abcdefghij", link := "https://example.com/news/a"
    summary := "", published := none, media_url := none }

/-- Counterexample entry B: title `abcdefghijkl` (similar to A,
ratio 10/11 ≈ 0.909). -/
def entB : RawFeedEntry :=
  { source := "feed", title := "abcdefghijkl", link := "https://example.com/news/b"
    summary := "", published := none, media_url := none }

/-- Counterexample entry C: title `abcdefghijklmn` (similar to B, ratio
12/13 ≈ 0.923, but not to A, ratio 5/6 ≈ 0.833). -/
def entC : RawFeedEntry :=
  { source := "feed", title := "abcdefghijklmn", link := "https://example.com/news/c"
    summary := "", published := none, media_url := none }

/-- Default-like configuration: no keywords, threshold 0.85, cap 25. -/
def cfg6 : RSSConfigM := { keywords := [], simNum := 17, simDen := 20, max_items := 25 }

/-- Counterexample for C6 as stated: entries B and C have title
similarity above the threshold in both comparison orders, B is the
earliest-seen of the pair, yet the run retains C and drops B — B was
rejected against the accepted A, so B never anchors the comparison, and
C (similar only to the non-retained B) is retained.  "Among any two
entries whose similarity is at or above the threshold only the
earliest-seen is retained" therefore fails. -/
theorem c6_similarity_not_earliest_counterexample :
    ratioGe 17 20 (lowerStr entC.title).data (lowerStr entB.title).data = true ∧
    ratioGe 17 20 (lowerStr entB.title).data (lowerStr entC.title).data = true ∧
    ratioGe 17 20 (lowerStr entB.title).data (lowerStr entA.title).data = true ∧
    ratioGe 17 20 (lowerStr entC.title).data (lowerStr entA.title).data = false ∧
    collect cfg6 [some [entA, entB, entC]] =
      [normalizeEntry [] entA, normalizeEntry [] entC] := by
  refine ⟨by decide, by decide, by decide, by decide, by decide⟩

end NewsPipeline
